import Mathlib

/-!
Shallow embedding of the sso service (Go) for checking its specification.

The model covers:
- the sqlite storage adapter (internal/storage/sqlite/sqlite.go) as pure
  functions over an explicit database state `Db`;
- the verification service (internal/services/verification) and the gRPC
  facade (internal/grpc/auth/server.go);
- the auth service operations Login and UpdateUser, whose source file is
  absent from the repository snapshot; these are modelled from the spec and
  marked as such in their doc comments.

Conventions: `time.Time` is an integer timestamp (the zero value is 0,
`t1.Before(t2)` is `t1 < t2`, `time.Now()` is an explicit `now` argument).
Go errors compared with `errors.Is` are modelled as the inductive `Err`;
`fmt.Errorf` wrapping preserves the kind, so wrapping is dropped.
Infrastructure failures of the store delete (network or disk errors) are
modelled by an explicit `deleteFails` oracle where a claim depends on them.
-/

inductive Err where
  | emptyEmail
  | emptyCode
  | emptyExpiresAt
  | codesDiffer
  | verificationExpired
  | verificationNotFound
  | userExists
  | userNotFound
  | appNotFound
  | invalidCredentials
  | passAreEqual
  | internal
deriving DecidableEq

/-- A users table row (internal/domain/models). Column `id` is the sqlite
rowid assigned on insert. -/
structure User where
  id : Int
  email : String
  passHash : String
  isAdmin : Bool
  isVerified : Bool
deriving DecidableEq

/-- An apps table row. -/
structure App where
  id : Int
  name : String
  secret : String
deriving DecidableEq

/-- models.VerificationData: one pending verification row
(migrations/5_init_verifications_tbl.up.sql: Primary Key on email). -/
structure VerificationData where
  email : String
  code : String
  expiresAt : Int
deriving DecidableEq

/-- The sqlite database state seen through one connection. `lastInsertId`
is the rowid of the most recent successful INSERT on the connection, which
is what database/sql `Result.LastInsertId` reports after any statement
(an UPDATE does not change it). `nextUserId` and `nextVerifRowid` are the
rowid counters of the two tables. -/
structure Db where
  users : List User
  apps : List App
  verifications : List VerificationData
  lastInsertId : Int
  nextUserId : Int
  nextVerifRowid : Int
deriving DecidableEq

/-- The Go zero value models.VerificationData\x7b\x7d. -/
def zeroVerificationData : VerificationData := ⟨"", "", 0⟩

/-- Equality of operation results is decidable, so concrete runs of the
model can be checked by evaluation. -/
instance exceptDecidableEq {ε α : Type} [DecidableEq ε] [DecidableEq α] :
    DecidableEq (Except ε α) := fun x y =>
  match x, y with
  | .ok a, .ok b =>
    if h : a = b then isTrue (by rw [h]) else isFalse (fun hh => by cases hh; exact h rfl)
  | .error a, .error b =>
    if h : a = b then isTrue (by rw [h]) else isFalse (fun hh => by cases hh; exact h rfl)
  | .ok _, .error _ => isFalse (fun hh => by cases hh)
  | .error _, .ok _ => isFalse (fun hh => by cases hh)

namespace Storage

/-- Storage.SaveUser: INSERT INTO users(email, pass_hash); a unique
constraint violation on email is returned as ErrUserExists. -/
def saveUser (db : Db) (email passHash : String) : Except Err Int × Db :=
  if db.users.any (fun u => u.email == email) then
    (.error .userExists, db)
  else
    let id := db.nextUserId
    (.ok id,
      { db with
          users := db.users ++ [⟨id, email, passHash, false, false⟩],
          lastInsertId := id,
          nextUserId := id + 1 })

/-- Storage.User: SELECT id, email, pass_hash FROM users WHERE email = ?;
no row gives ErrUserNotFound. -/
def user (db : Db) (email : String) : Except Err User :=
  match db.users.find? (fun u => u.email == email) with
  | some u => .ok u
  | none => .error .userNotFound

/-- Storage.VerifyUser: UPDATE users SET is_verified = true WHERE email = ?.
An UPDATE matching zero rows is not an error in database/sql, and the
ErrUserNotFound branch in the source compares a sqlite extended error code
against sql.ErrNoRows, which never holds; so the call always succeeds and
returns Result.LastInsertId, the rowid of the last INSERT on the
connection. -/
def verifyUser (db : Db) (email : String) : Except Err Int × Db :=
  (.ok db.lastInsertId,
    { db with
        users := db.users.map
          (fun u => if u.email == email then { u with isVerified := true } else u) })

/-- Storage.App: SELECT id, name, secret FROM apps WHERE id = ?. -/
def app (db : Db) (id : Int) : Except Err App :=
  match db.apps.find? (fun a => a.id == id) with
  | some a => .ok a
  | none => .error .appNotFound

/-- Storage.StoreVerification: INSERT INTO verifications(email, code,
expiresAt). The table has Primary Key (email), so a second insert for the
same email fails with a constraint violation whose extended code is
SQLITE_CONSTRAINT_PRIMARYKEY (1555). The source only special-cases
ErrConstraintUnique (2067), so its storage.ErrUserExists wrap never fires
for this table and the call returns a generic wrapped sqlite error that
matches no domain sentinel; that opaque failure is modelled as the
internal kind. The foreign key to users(email) is not enforced because
the sqlite driver is opened without the foreign_keys pragma, which
defaults to off. On success the source returns the zero value
models.VerificationData\x7b\x7d, not the stored row. -/
def storeVerification (db : Db) (email code : String) (expiresAt : Int) :
    Except Err VerificationData × Db :=
  if db.verifications.any (fun v => v.email == email) then
    (.error .internal, db)
  else
    let rowid := db.nextVerifRowid
    (.ok zeroVerificationData,
      { db with
          verifications := db.verifications ++ [⟨email, code, expiresAt⟩],
          lastInsertId := rowid,
          nextVerifRowid := rowid + 1 })

/-- Storage.Verification: SELECT * FROM verifications WHERE email = ?;
no row gives ErrVerificationNotFound. -/
def verification (db : Db) (email : String) : Except Err VerificationData :=
  match db.verifications.find? (fun v => v.email == email) with
  | some v => .ok v
  | none => .error .verificationNotFound

/-- Storage.DeleteVerification: DELETE from verifications WHERE email = ?;
deleting zero rows is not an error, so the operation is total on the
state. -/
def deleteVerification (db : Db) (email : String) : Db :=
  { db with verifications := db.verifications.filter (fun v => v.email != email) }

end Storage

namespace Verification

/-- services/verification Verification.StoreVerification: validates the
three inputs non-empty / non-zero, then delegates to the storage adapter;
storage errors are wrapped (kind preserved) and the zero record is
returned alongside them. -/
def storeVerification (db : Db) (email code : String) (expiresAt : Int) :
    Except Err VerificationData × Db :=
  if email = "" then (.error .emptyEmail, db)
  else if code = "" then (.error .emptyCode, db)
  else if expiresAt = 0 then (.error .emptyExpiresAt, db)
  else Storage.storeVerification db email code expiresAt

/-- services/verification Verification.Verify. Faithful to the source:
a fetch error from the provider is only logged, not returned, so the zero
value record flows into the code comparison; the code comparison runs
before the expiry check; in the expired branch the cleanup delete result
is ignored; in the deleteAfterAttempt branch a delete error is returned.
`deleteFails` is the infrastructure oracle for the store delete calls:
when true a delete leaves the state unchanged and reports an opaque
internal error. -/
def verify (db : Db) (now : Int) (email code : String)
    (deleteAfterAttempt : Bool) (deleteFails : Bool) :
    Except Err String × Db :=
  if email = "" then (.error .emptyEmail, db)
  else if code = "" then (.error .emptyCode, db)
  else
    let vd := match Storage.verification db email with
      | .ok v => v
      | .error _ => zeroVerificationData
    if vd.code ≠ code then (.error .codesDiffer, db)
    else if vd.expiresAt < now then
      let db1 := if deleteFails then db else Storage.deleteVerification db email
      (.error .verificationExpired, db1)
    else
      match Storage.verifyUser db email with
      | (.ok id, db1) =>
        if deleteAfterAttempt then
          if deleteFails then (.error .internal, db1)
          else (.ok (toString id), Storage.deleteVerification db1 email)
        else (.ok (toString id), db1)
      | (.error e, db1) => (.error e, db1)

/-- services/verification Verification.DeleteVerification: validates the
email non-empty, then delegates to the storage delete, which only fails on
infrastructure errors (not modelled here: no claim depends on them for
this operation). -/
def deleteVerification (db : Db) (email : String) : Except Err Unit × Db :=
  if email = "" then (.error .emptyEmail, db)
  else (.ok (), Storage.deleteVerification db email)

end Verification

inductive GrpcCode where
  | okCode
  | invalidArgument
  | alreadyExists
  | notFound
  | permissionDenied
  | internal
deriving DecidableEq

structure GrpcStatus where
  code : GrpcCode
  msg : String
deriving DecidableEq

/-- The signed token claim set \x7buser-id, email, app-id, expiry\x7d. -/
structure Token where
  userId : Int
  email : String
  appId : Int
  expiresAt : Int
deriving DecidableEq

namespace Auth

/-- Modelled from the spec: the Auth service operation Login (the source
file internal/services/auth is absent from the repository snapshot; only
its callers are present). Fetches the User by email; a UserNotFound from
the store becomes InvalidCredentials; compares the supplied password
against the stored hash with the comparison function `pwMatches`; on
mismatch fails InvalidCredentials; on success fetches the App by appID
(AppNotFound if absent) and issues a token with expiry now + ttl. -/
def login (pwMatches : String → String → Bool) (db : Db)
    (email password : String) (appID : Int) (now ttl : Int) :
    Except Err Token :=
  match Storage.user db email with
  | .error .userNotFound => .error .invalidCredentials
  | .error e => .error e
  | .ok u =>
    if pwMatches password u.passHash then
      match Storage.app db appID with
      | .error e => .error e
      | .ok _ => .ok ⟨u.id, email, appID, now + ttl⟩
    else .error .invalidCredentials

/-- Modelled from the spec: the Auth service operation UpdateUser (the
source file internal/services/auth is absent from the repository
snapshot). Fetches the current User, UserNotFound if absent; fails
PasswordsAreEqual when the new password matches the existing credential;
otherwise stores the new password hash, sets is-verified to true and
returns the user id. -/
def updateUser (pwMatches : String → String → Bool) (hashF : String → String)
    (db : Db) (email newPassword : String) : Except Err Int × Db :=
  match Storage.user db email with
  | .error e => (.error e, db)
  | .ok u =>
    if pwMatches newPassword u.passHash then (.error .passAreEqual, db)
    else
      (.ok u.id,
        { db with
            users := db.users.map
              (fun w =>
                if w.email == email then
                  { w with passHash := hashF newPassword, isVerified := true }
                else w) })

end Auth

/-- server.go serverAPI.Login: presence validation of email, password and
app_id, then the Auth service call; ErrInvalidCredentials maps to
InvalidArgument with a fixed message, anything else to Internal. -/
def serverLogin (pwMatches : String → String → Bool) (db : Db)
    (email password : String) (appID : Int) (now ttl : Int) :
    Except GrpcStatus Token :=
  if email = "" then .error ⟨.invalidArgument, "email is required"⟩
  else if password = "" then .error ⟨.invalidArgument, "password is required"⟩
  else if appID = 0 then .error ⟨.invalidArgument, "app_id is required"⟩
  else
    match Auth.login pwMatches db email password appID now ttl with
    | .error e =>
      if e = .invalidCredentials then
        .error ⟨.invalidArgument, "invalid email or password"⟩
      else .error ⟨.internal, "failed to login"⟩
    | .ok t => .ok t

/-- server.go validateVerificationResult: maps the verification service
error kinds to transport status codes. -/
def validateVerificationResult : Except Err String → Except GrpcStatus String
  | .ok r => .ok r
  | .error e =>
    if e = .verificationNotFound then .error ⟨.notFound, "verification not found"⟩
    else if e = .verificationExpired then .error ⟨.internal, "verification expired"⟩
    else if e = .codesDiffer then .error ⟨.permissionDenied, "codes differ"⟩
    else .error ⟨.internal, "failed to verify email"⟩

/-- server.go serverAPI.ResetPassword: presence validation, then
Verify(email, code, delete=false), then UpdateUser, then
DeleteVerification; an UpdateUser failure returns before the delete. -/
def serverResetPassword (pwMatches : String → String → Bool)
    (hashF : String → String) (db : Db) (now : Int)
    (email code newPassword : String) (deleteFails : Bool) :
    Except GrpcStatus Bool × Db :=
  if email = "" then (.error ⟨.invalidArgument, "email is required"⟩, db)
  else if code = "" then (.error ⟨.invalidArgument, "code is required"⟩, db)
  else if newPassword = "" then (.error ⟨.invalidArgument, "password is required"⟩, db)
  else
    let r1 := Verification.verify db now email code false deleteFails
    match validateVerificationResult r1.1 with
    | .error st => (.error st, r1.2)
    | .ok _ =>
      let r2 := Auth.updateUser pwMatches hashF r1.2 email newPassword
      match r2.1 with
      | .error e =>
        if e = .passAreEqual then
          (.error ⟨.invalidArgument, "passwords should differ"⟩, r2.2)
        else (.error ⟨.internal, "failed to update user password"⟩, r2.2)
      | .ok _ =>
        let r3 := Verification.deleteVerification r2.2 email
        match r3.1 with
        | .error _ => (.error ⟨.internal, "failed to delete verification"⟩, r3.2)
        | .ok _ => (.ok true, r3.2)

/-- The empty database. -/
def dbEmpty : Db := ⟨[], [], [], 0, 1, 1⟩

/-- One registered user with a pending verification record: the state
after SaveUser and StoreVerification for a@x.com. -/
def dbC1 : Db :=
  (Storage.storeVerification (Storage.saveUser dbEmpty "a@x.com" "h1").2
    "a@x.com" "111111" 500).2

/-- One registered user, no verification record. -/
def dbC2 : Db := (Storage.saveUser dbEmpty "a@x.com" "h1").2

/-- Two registered users; a verification was stored for b@x.com first and
for a@x.com second, so the last INSERT on the connection is the
verifications rowid 2. -/
def dbC3 : Db :=
  (Storage.storeVerification
    (Storage.storeVerification
      (Storage.saveUser (Storage.saveUser dbEmpty "a@x.com" "h1").2
        "b@x.com" "h2").2
      "b@x.com" "999999" 900).2
    "a@x.com" "123456" 900).2

/-- One registered user a@x.com; lastInsertId is 1 from that insert. -/
def dbC8 : Db := (Storage.saveUser dbEmpty "a@x.com" "h1").2

/-- One registered user with password hash pw1 and a pending verification
record with code 123456 expiring at 900. -/
def dbW : Db :=
  (Storage.storeVerification (Storage.saveUser dbEmpty "a@x.com" "pw1").2
    "a@x.com" "123456" 900).2

/-- Like dbW but the verification record expires at 50 (already past at
time 100). -/
def dbW5 : Db :=
  (Storage.storeVerification (Storage.saveUser dbEmpty "a@x.com" "pw1").2
    "a@x.com" "123456" 50).2

/-- Fetching a verification after the storage delete for the same email
always reports not found. -/
theorem verification_after_delete (db : Db) (email : String) :
    Storage.verification (Storage.deleteVerification db email) email
      = .error .verificationNotFound := by
  have h : (db.verifications.filter (fun v => v.email != email)).find?
      (fun v => v.email == email) = none := by
    rw [List.find?_eq_none]
    intro v hv
    have h2 := (List.mem_filter.mp hv).2
    simp only [bne_iff_ne, ne_eq] at h2
    simp [h2]
  simp [Storage.verification, Storage.deleteVerification, h]

/-- The storage delete is idempotent on the state. -/
theorem deleteVerification_idem (db : Db) (email : String) :
    Storage.deleteVerification (Storage.deleteVerification db email) email
      = Storage.deleteVerification db email := by
  simp [Storage.deleteVerification, List.filter_filter]

/-- Marking rows verified commutes with the user lookup: the lookup after
the update returns the verified copy of the user the lookup before the
update returns. -/
theorem find?_mark_verified (l : List User) (email : String) :
    (l.map (fun u => if u.email == email then { u with isVerified := true } else u)).find?
        (fun u => u.email == email)
      = (l.find? (fun u => u.email == email)).map
          (fun u => { u with isVerified := true }) := by
  induction l with
  | nil => rfl
  | cons u us ih =>
    by_cases h : u.email = email
    · simp [h]
    · simp only [List.map_cons]
      rw [List.find?_cons_of_neg _ (by simp [h]), List.find?_cons_of_neg _ (by simp [h])]
      exact ih

/-- Lookup of a user by email after Storage.VerifyUser for that email. -/
theorem user_after_verifyUser (db : Db) (email : String) :
    Storage.user (Storage.verifyUser db email).2 email
      = (Storage.user db email).map (fun u => { u with isVerified := true }) := by
  simp only [Storage.user, Storage.verifyUser, find?_mark_verified]
  cases h : db.users.find? (fun u => u.email == email) <;> simp [h, Except.map]

/-- Claim C1: states that a second StoreVerification for an email that
already has a pending record succeeds and leaves exactly one pending
record holding the second code. The code refutes this: the INSERT hits the
primary-key constraint on email (extended code 1555, which the checked
ErrConstraintUnique 2067 never matches), so the call fails with a generic
wrapped sqlite error, modelled as the opaque internal kind, and the single
remaining record still holds the first code. -/
theorem storeVerification_second_call_conflicts :
    (Verification.storeVerification dbC1 "a@x.com" "222222" 900).1 = .error .internal
    ∧ (Verification.storeVerification dbC1 "a@x.com" "222222" 900).2.verifications
      = [⟨"a@x.com", "111111", 500⟩] := by decide

/-- Claim C2: states that Verify for an email with no pending record and
non-empty email and code fails with VerificationNotFound. The code refutes
this: the fetch error is only logged, the zero-value record flows into the
code comparison, and the call fails with CodesDiffer instead. -/
theorem verify_missing_record_reports_codesDiffer :
    Storage.verification dbC2 "a@x.com" = .error .verificationNotFound
    ∧ (Verification.verify dbC2 100 "a@x.com" "123456" true false).1
      = .error .codesDiffer := by decide

/-- Claim C3: states that a successful Verify returns the id of the user
owning the email. The code refutes the returned-id part: Storage.VerifyUser
runs an UPDATE and then reports Result.LastInsertId, the rowid of the last
INSERT on the connection. In dbC3 the owner of a@x.com has id 1 but the
last insert was the verifications rowid 2, so Verify returns "2". The
other parts of the claim do hold on this run: the user is marked verified
and the record is deleted because deleteAfterAttempt is true. -/
theorem verify_returns_connection_rowid_not_owner_id :
    Storage.user dbC3 "a@x.com" = .ok ⟨1, "a@x.com", "h1", false, false⟩
    ∧ (Verification.verify dbC3 100 "a@x.com" "123456" true false).1 = .ok "2"
    ∧ (Verification.verify dbC3 100 "a@x.com" "123456" true false).2.users.map
        (fun u => (u.email, u.isVerified)) = [("a@x.com", true), ("b@x.com", false)]
    ∧ Storage.verification (Verification.verify dbC3 100 "a@x.com" "123456" true false).2
        "a@x.com" = .error .verificationNotFound := by decide

/-- Claim C4: for every pending record whose code differs from the
supplied code, Verify fails with CodesDiffer and the record is untouched
and still fetchable, regardless of deleteAfterAttempt (and of delete
infrastructure failures). -/
theorem verify_codesDiffer_keeps_record (db : Db) (now : Int)
    (email code : String) (r : VerificationData) (d f : Bool)
    (he : email ≠ "") (hc : code ≠ "")
    (hr : Storage.verification db email = .ok r) (hne : r.code ≠ code) :
    Verification.verify db now email code d f = (.error .codesDiffer, db)
    ∧ Storage.verification (Verification.verify db now email code d f).2 email = .ok r := by
  have h1 : Verification.verify db now email code d f = (.error .codesDiffer, db) := by
    simp [Verification.verify, he, hc, hr, hne]
  exact ⟨h1, by rw [h1]; exact hr⟩

/-- Witness for C4: in dbW the pending code is 123456; supplying 000000
fails with CodesDiffer and leaves the record fetchable. -/
theorem verify_codesDiffer_keeps_record_witness :
    Verification.verify dbW 100 "a@x.com" "000000" true false = (.error .codesDiffer, dbW)
    ∧ Storage.verification (Verification.verify dbW 100 "a@x.com" "000000" true false).2
        "a@x.com" = .ok ⟨"a@x.com", "123456", 900⟩ :=
  verify_codesDiffer_keeps_record dbW 100 "a@x.com" "000000" ⟨"a@x.com", "123456", 900⟩
    true false (by decide) (by decide) (by decide) (by decide)

/-- Claim C5: for every pending record whose code matches but whose
expiry is before now, Verify fails with VerificationExpired whether or not
the cleanup delete fails, and when the cleanup delete goes through a
subsequent fetch for that email reports not found. -/
theorem verify_expired_reports_and_deletes (db : Db) (now : Int)
    (email code : String) (r : VerificationData) (d f : Bool)
    (he : email ≠ "") (hc : code ≠ "")
    (hr : Storage.verification db email = .ok r) (hcode : r.code = code)
    (hexp : r.expiresAt < now) :
    (Verification.verify db now email code d f).1 = .error .verificationExpired
    ∧ (f = false →
        Storage.verification (Verification.verify db now email code d f).2 email
          = .error .verificationNotFound) := by
  have h1 : Verification.verify db now email code d f
      = (.error .verificationExpired,
          if f then db else Storage.deleteVerification db email) := by
    simp [Verification.verify, he, hc, hr, hcode, hexp]
  refine ⟨by rw [h1], fun hf => ?_⟩
  rw [h1, hf]
  simp [verification_after_delete]

/-- Witness for C5: in dbW5 the record expired at 50; verifying at 100
with the matching code fails with VerificationExpired and the record is
gone afterwards. -/
theorem verify_expired_reports_and_deletes_witness :
    (Verification.verify dbW5 100 "a@x.com" "123456" true false).1
      = .error .verificationExpired
    ∧ Storage.verification (Verification.verify dbW5 100 "a@x.com" "123456" true false).2
        "a@x.com" = .error .verificationNotFound :=
  ⟨(verify_expired_reports_and_deletes dbW5 100 "a@x.com" "123456"
      ⟨"a@x.com", "123456", 50⟩ true false
      (by decide) (by decide) (by decide) (by decide) (by decide)).1,
   (verify_expired_reports_and_deletes dbW5 100 "a@x.com" "123456"
      ⟨"a@x.com", "123456", 50⟩ true false
      (by decide) (by decide) (by decide) (by decide) (by decide)).2 rfl⟩

/-- Claim C6: a login for an unregistered email and a login with a wrong
password for a registered user produce the same transport-level error, so
the caller cannot distinguish the two cases from the result. -/
theorem login_conflates_missing_user_and_wrong_password
    (pwMatches : String → String → Bool)
    (db db2 : Db) (email email2 password password2 : String)
    (appID appID2 now now2 ttl ttl2 : Int) (u : User)
    (he : email ≠ "") (hp : password ≠ "") (ha : appID ≠ 0)
    (he2 : email2 ≠ "") (hp2 : password2 ≠ "") (ha2 : appID2 ≠ 0)
    (hno : Storage.user db email = .error .userNotFound)
    (hu : Storage.user db2 email2 = .ok u)
    (hmm : pwMatches password2 u.passHash = false) :
    serverLogin pwMatches db email password appID now ttl
      = .error ⟨.invalidArgument, "invalid email or password"⟩
    ∧ serverLogin pwMatches db2 email2 password2 appID2 now2 ttl2
      = .error ⟨.invalidArgument, "invalid email or password"⟩ := by
  constructor
  · simp [serverLogin, Auth.login, he, hp, ha, hno]
  · simp [serverLogin, Auth.login, he2, hp2, ha2, hu, hmm]

/-- Witness for C6: a login for a ghost email on the empty database and a
wrong-password login for the registered user of dbC2 yield the same
error. -/
theorem login_conflates_missing_user_and_wrong_password_witness :
    serverLogin (fun p h => p == h) dbEmpty "ghost@x.com" "pw" 1 0 3600
      = .error ⟨.invalidArgument, "invalid email or password"⟩
    ∧ serverLogin (fun p h => p == h) dbC2 "a@x.com" "wrong" 1 0 3600
      = .error ⟨.invalidArgument, "invalid email or password"⟩ :=
  login_conflates_missing_user_and_wrong_password (fun p h => p == h)
    dbEmpty dbC2 "ghost@x.com" "a@x.com" "pw" "wrong" 1 1 0 0 3600 3600
    ⟨1, "a@x.com", "h1", false, false⟩
    (by decide) (by decide) (by decide) (by decide) (by decide) (by decide)
    (by decide) (by decide) (by decide)

/-- Claim C7: in the ResetPassword flow, when UpdateUser fails with
PasswordsAreEqual the handler returns before DeleteVerification and the
pending verification record for the email is left exactly as it was. -/
theorem resetPassword_passAreEqual_leaves_record_pending
    (pwMatches : String → String → Bool) (hashF : String → String)
    (db : Db) (now : Int) (email code newPassword : String)
    (r : VerificationData) (u : User)
    (he : email ≠ "") (hc : code ≠ "") (hp : newPassword ≠ "")
    (hr : Storage.verification db email = .ok r) (hcode : r.code = code)
    (hexp : ¬ r.expiresAt < now)
    (hu : Storage.user db email = .ok u)
    (heq : pwMatches newPassword u.passHash = true) :
    (serverResetPassword pwMatches hashF db now email code newPassword false).1
      = .error ⟨.invalidArgument, "passwords should differ"⟩
    ∧ (serverResetPassword pwMatches hashF db now email code newPassword false).2.verifications
      = db.verifications := by
  have hv : Verification.verify db now email code false false
      = (.ok (toString db.lastInsertId), (Storage.verifyUser db email).2) := by
    simp [Verification.verify, he, hc, hr, hcode, hexp, Storage.verifyUser]
  have hu1 : Storage.user (Storage.verifyUser db email).2 email
      = .ok { u with isVerified := true } := by
    rw [user_after_verifyUser, hu]
    rfl
  have hup : Auth.updateUser pwMatches hashF (Storage.verifyUser db email).2 email newPassword
      = (.error .passAreEqual, (Storage.verifyUser db email).2) := by
    simp [Auth.updateUser, hu1, heq]
  have hmain : serverResetPassword pwMatches hashF db now email code newPassword false
      = (.error ⟨.invalidArgument, "passwords should differ"⟩,
          (Storage.verifyUser db email).2) := by
    simp [serverResetPassword, he, hc, hp, hv, validateVerificationResult, hup]
  rw [hmain]
  exact ⟨rfl, rfl⟩

/-- Witness for C7: resetting the password of the dbW user to its current
value pw1 fails with the passwords-should-differ error and keeps the
verification record list unchanged. -/
theorem resetPassword_passAreEqual_leaves_record_pending_witness :
    (serverResetPassword (fun p h => p == h) (fun p => p) dbW 100 "a@x.com" "123456" "pw1"
        false).1 = .error ⟨.invalidArgument, "passwords should differ"⟩
    ∧ (serverResetPassword (fun p h => p == h) (fun p => p) dbW 100 "a@x.com" "123456" "pw1"
        false).2.verifications = dbW.verifications :=
  resetPassword_passAreEqual_leaves_record_pending (fun p h => p == h) (fun p => p)
    dbW 100 "a@x.com" "123456" "pw1"
    ⟨"a@x.com", "123456", 900⟩ ⟨1, "a@x.com", "pw1", false, false⟩
    (by decide) (by decide) (by decide) (by decide) (by decide) (by decide)
    (by decide) (by decide)

/-- Claim C8: states that Storage.VerifyUser for an email with no matching
user row fails with UserNotFound. The code refutes this: the UPDATE
matching zero rows is not an error and the broken not-found branch never
fires, so the call succeeds and returns the last-insert rowid of the
connection (1 in dbC8) even though no such user exists. -/
theorem verifyUser_missing_user_still_succeeds :
    dbC8.users.map User.email = ["a@x.com"]
    ∧ (Storage.verifyUser dbC8 "ghost@x.com").1 = .ok 1 := by decide

/-- Claim C9: for every non-empty email DeleteVerification succeeds even
with no pending record, and running it twice gives the same outcome and
final state as running it once; for the empty email it fails with
EmptyEmail. -/
theorem deleteVerification_idempotent_and_empty_email (db : Db) (email : String) :
    (email ≠ "" →
      (Verification.deleteVerification db email).1 = .ok ()
      ∧ Verification.deleteVerification (Verification.deleteVerification db email).2 email
          = (.ok (), (Verification.deleteVerification db email).2))
    ∧ (email = "" → Verification.deleteVerification db email = (.error .emptyEmail, db)) := by
  constructor
  · intro he
    constructor
    · simp [Verification.deleteVerification, he]
    · simp [Verification.deleteVerification, he, deleteVerification_idem]
  · intro he
    simp [Verification.deleteVerification, he]

/-- Witness for C9: deleting the a@x.com record of dbW twice behaves like
deleting it once, and the empty email fails with EmptyEmail. -/
theorem deleteVerification_idempotent_and_empty_email_witness :
    ((Verification.deleteVerification dbW "a@x.com").1 = .ok ()
      ∧ Verification.deleteVerification
          (Verification.deleteVerification dbW "a@x.com").2 "a@x.com"
          = (.ok (), (Verification.deleteVerification dbW "a@x.com").2))
    ∧ Verification.deleteVerification dbW "" = (.error .emptyEmail, dbW) :=
  ⟨(deleteVerification_idempotent_and_empty_email dbW "a@x.com").1 (by decide),
   (deleteVerification_idempotent_and_empty_email dbW "").2 rfl⟩

/-- Claim C10: every successful Storage.StoreVerification returns the zero
record (empty email, empty code, zero expiry), never echoing the stored
inputs. -/
theorem storeVerification_returns_zero_record (db : Db) (email code : String)
    (expiresAt : Int) (v : VerificationData)
    (h : (Storage.storeVerification db email code expiresAt).1 = .ok v) :
    v = zeroVerificationData := by
  by_cases hc : db.verifications.any (fun w => w.email == email)
  · simp [Storage.storeVerification, hc] at h
  · simp [Storage.storeVerification, hc] at h
    exact h.symm

/-- Witness for C10: a successful store on dbC2 returns the zero record. -/
theorem storeVerification_returns_zero_record_witness :
    (Storage.storeVerification dbC2 "a@x.com" "123456" 500).1 = .ok zeroVerificationData
    ∧ zeroVerificationData = zeroVerificationData :=
  ⟨by decide,
   storeVerification_returns_zero_record dbC2 "a@x.com" "123456" 500
     zeroVerificationData (by decide)⟩
